import Mathlib

/-!
Shallow embedding of `src/title-bar-types.js` (class `TitleBarTypes`, the
authoritative implementation) together with the pieces of the companion
`TitleBar` class and the repository's test file that the claims refer to.

JavaScript values that can flow through the component are modelled
explicitly: a template-literal interpolation of a string-or-number value,
`undefined` for an absent object key (an `Option`), and JS truthiness for
the two places the code branches on it (`this.formatter` and
`this.bar.title`).
-/

namespace TitleBarTypes

/-- A JS value of the union type `string|number` accepted by `format`
(numbers in the claims are integral, so `Int` carries them; its decimal
`toString` agrees with the JS coercion on integers). -/
inductive JSValue where
  | str (s : String)
  | num (n : Int)
deriving DecidableEq

/-- Template-literal coercion `${v}` of a string-or-number value. -/
def jsTemplate : JSValue → String
  | .str s => s
  | .num n => toString n

/-- The `Bar` record from the JSDoc typedef:
`{x: number, y: number, title?: string}` — `title` is an optional key,
`none` standing for an absent key (`undefined`). -/
structure Bar where
  x : Int
  y : Int
  title : Option String
deriving DecidableEq

/-- JS truthiness of `bar.title` (`undefined` and `''` are falsy). -/
def jsTruthyStr : Option String → Bool
  | some t => t ≠ ""
  | none => false

/-- The element's instance fields, as initialized by the constructor and
mutated by external property assignment. `formatter` is `null` or a
unary function (its string-or-number result is interpolated by the
template literal in `format`). -/
structure TitleBarState where
  title : String
  darkMode : Bool
  bar : Bar
  formatter : Option (JSValue → JSValue)

/-- The constructor body of `TitleBarTypes` (and identically `TitleBar`):
`this.title = 'You are awesome'; this.darkMode = false;
this.bar = { x: 0, y: 0, title: 'I am dot' }; this.formatter = null;`.
It only assigns the four fields, so the embedding is a pure value. -/
def init : TitleBarState :=
  { title := "You are awesome"
    darkMode := false
    bar := { x := 0, y := 0, title := some "I am dot" }
    formatter := none }

/-- A supplied `options` object for `format`. Each field holds the value
of the corresponding key; `none` means the key is absent, so the
destructured variable is `undefined`. (The source's key names are
`prefix` and `suffix`.) -/
structure FormatOptions where
  pre : Option String
  suf : Option String
deriving DecidableEq

/-- `${prefix}` when `prefix` may be `undefined`: JS stringifies
`undefined` to the text `"undefined"`. -/
def jsTemplateOpt : Option String → String
  | some s => s
  | none => "undefined"

/-- The `let formattedValue = value; if (this.formatter) { formattedValue
= this.formatter(value); }` part of `format`: `this.formatter` is truthy
exactly when it is a function. -/
def applyFormatter (self : TitleBarState) (value : JSValue) : JSValue :=
  match self.formatter with
  | some f => f value
  | none => value

/-- `format(value, { prefix, suffix = '' } = { prefix: '' })` from
`src/title-bar-types.js`. When `options` is omitted (`none`) the default
object `{ prefix: '' }` is destructured: `prefix = ''` and `suffix`
falls back to its per-key default `''`. When an object is supplied its
keys are destructured as-is: `prefix` is `undefined` if the key is
absent, `suffix` defaults to `''` if absent. The result is
`` `${prefix}${formattedValue}${suffix}` ``. -/
def TitleBarState.format (self : TitleBarState) (value : JSValue)
    (options : Option FormatOptions) : String :=
  let p : Option String :=
    match options with
    | none => some ""
    | some o => o.pre
  let s : String :=
    match options with
    | none => ""
    | some o => o.suf.getD ""
  jsTemplateOpt p ++ jsTemplate (applyFormatter self value) ++ s

/-- The render description: the data the template literal in `render()`
binds — the `<h1>` child content, the dot's `style` attribute string and
the dot's `title` attribute string. -/
structure RenderDescription where
  heading : String
  dotStyle : String
  dotTitle : String
deriving DecidableEq

/-- `render()` from `src/title-bar-types.js`:
`<h1>${this.format(this.title, { prefix: '' })}</h1>` and
`<div class="dot" style=${`left: ${this.bar.x}px; top: ${this.bar.y}`}
title=${this.bar.title ? this.bar.title : ''}>`. -/
def TitleBarState.render (self : TitleBarState) : RenderDescription :=
  { heading := self.format (.str self.title) (some { pre := some "", suf := none })
    dotStyle := "left: " ++ toString self.bar.x ++ "px; top: " ++ toString self.bar.y
    dotTitle := if jsTruthyStr self.bar.title then self.bar.title.getD "" else "" }

/-- The `type` option of a property declaration (`String`, `Boolean` or
`Object` in the source). -/
inductive PropType where
  | string
  | boolean
  | object
deriving DecidableEq

/-- One entry of the static `properties` map. A key absent in the source
literal is its lit-element default: `reflect` defaults to `false` and an
unspecified `attribute` is `none`. -/
structure PropertyDeclaration where
  type : PropType
  reflect : Bool
  attrName : Option String
deriving DecidableEq

/-- `static get properties()` from `src/title-bar-types.js` (the
`TitleBar` class in the article source declares the identical map):
`{ title: { type: String }, darkMode: { type: Boolean, reflect: true,
attribute: 'dark-mode' }, bar: { type: Object } }`. -/
def properties : List (String × PropertyDeclaration) :=
  [ ("title", { type := .string, reflect := false, attrName := none })
  , ("darkMode", { type := .boolean, reflect := true, attrName := some "dark-mode" })
  , ("bar", { type := .object, reflect := false, attrName := none }) ]

/-- `Object.keys(TitleBarTypes.properties)` — the key list the
repository's test measures with `to.have.lengthOf(2)`. -/
def propertiesKeys : List String := properties.map Prod.fst

/-- Modelled from the spec: the re-render scheduling of the host
framework (lit-element, an external dependency, not part of `src/`).
Per the spec, assigning a field declared in the static `properties` map
schedules a re-render when its value changed, while assigning a plain
undeclared field such as `formatter` "performs no scheduling". -/
def assignSchedulesRender (fieldName : String) (valueChanged : Bool) : Bool :=
  propertiesKeys.contains fieldName && valueChanged

/-- The element's boundary-visible state: its fields plus the presence
of the `dark-mode` attribute on the host. -/
structure DomState where
  fields : TitleBarState
  hasDarkModeAttr : Bool

/-- Modelled from the spec: lit-element's reflection step (not part of
`src/`). Because `darkMode` is declared with `reflect: true` and
`attribute: 'dark-mode'`, after the next render cycle the boundary
attribute's presence matches the boolean field. -/
def reflectAfterRender (d : DomState) : DomState :=
  { d with hasDarkModeAttr := d.fields.darkMode }

/-- Modelled from the spec: the attribute-to-property direction of the
two-way reflection (not part of `src/`) — an external change to the
boolean `dark-mode` attribute updates the `darkMode` field to the
attribute's presence. -/
def attributeChanged (d : DomState) (attrPresent : Bool) : DomState :=
  { fields := { d.fields with darkMode := attrPresent }
    hasDarkModeAttr := attrPresent }

/-- `render()` as an explicit state transformer: the method body is a
single `return` of the template literal and contains no assignment to
`this`, so the instance state threads through unchanged. -/
def renderStep (self : TitleBarState) : RenderDescription × TitleBarState :=
  (self.render, self)

/-- `format(value, options)` as an explicit state transformer: the body
only reads `this.formatter` and never assigns to `this`, so the
instance state threads through unchanged. -/
def formatStep (self : TitleBarState) (value : JSValue)
    (options : Option FormatOptions) : String × TitleBarState :=
  (self.format value options, self)

/-- C1: for every value `v` (string or number) and every state of the
`formatter` field, `format(v, {prefix, suffix})` with both keys supplied
returns the string `prefix + f + suffix` where `f = formatter(v)` when
`formatter` is non-null and `f = v` otherwise; and with the options
argument omitted entirely the result is the string representation of `f`
with empty prefix and empty suffix. -/
theorem C1_format_result (st : TitleBarState) (v : JSValue) (p s : String) :
    st.format v (some { pre := some p, suf := some s })
        = p ++ jsTemplate (match st.formatter with | some f => f v | none => v) ++ s
    ∧ st.format v none
        = "" ++ jsTemplate (match st.formatter with | some f => f v | none => v) ++ "" :=
  ⟨rfl, rfl⟩

/-- C2: the static `properties` map of the source declares three keys,
`title`, `darkMode` and `bar` — not two.  The repository's own test
asserts `Object.keys(TitleBar.properties)` has length 2, so the code
contradicts its own test suite. -/
theorem C2_properties_has_three_keys :
    propertiesKeys = ["title", "darkMode", "bar"] ∧ propertiesKeys.length = 3 :=
  ⟨rfl, rfl⟩

/-- C3: assigning `formatter` never schedules a re-render (it is not a
key of the static `properties` map), while a changed assignment to any
of `title`, `darkMode` or `bar` does schedule one. -/
theorem C3_formatter_mutation_schedules_nothing :
    (∀ valueChanged : Bool, assignSchedulesRender "formatter" valueChanged = false)
    ∧ assignSchedulesRender "title" true = true
    ∧ assignSchedulesRender "darkMode" true = true
    ∧ assignSchedulesRender "bar" true = true := by
  decide

/-- C4: construction initializes exactly
`title = "You are awesome"`, `darkMode = false`,
`bar = {x: 0, y: 0, title: "I am dot"}` and `formatter = null`; the
constructor body consists of these four field assignments only, so the
embedding is the pure value `init`. -/
theorem C4_constructor_defaults :
    init.title = "You are awesome"
    ∧ init.darkMode = false
    ∧ init.bar = { x := 0, y := 0, title := some "I am dot" }
    ∧ init.formatter = none :=
  ⟨rfl, rfl, rfl, rfl⟩

/-- C5: for every `bar` record the rendered marker's `title` attribute
equals `bar.title` when the `title` key is present and the empty string
when it is absent — i.e. it is `bar.title` with default `""`. -/
theorem C5_dot_title_matches_bar_title (st : TitleBarState) :
    st.render.dotTitle = st.bar.title.getD "" := by
  unfold TitleBarState.render
  cases h : st.bar.title with
  | none => simp [jsTruthyStr, h]
  | some t =>
    by_cases ht : t = "" <;> simp [jsTruthyStr, h, ht]

/-- C6: at `bar = {x: 1, y: 2}` the emitted inline style string is
`"left: 1px; top: 2"` — the left offset carries the pixel unit but the
top offset does not, contradicting the claim (and the repository's own
article, which documents the rendered marker as
`style="left: 0px; top: 0px"`). -/
theorem C6_style_top_lacks_px_unit :
    (TitleBarState.render
        { init with bar := { x := 1, y := 2, title := none } }).dotStyle
      = "left: 1px; top: 2" :=
  rfl

/-- C7: `render` has no side effects — run as a state transformer it
returns the state unchanged — and it is idempotent: rendering again
from the post-state yields an identical render description. -/
theorem C7_render_pure_and_idempotent (st : TitleBarState) :
    (renderStep st).2 = st
    ∧ (renderStep (renderStep st).2).1 = (renderStep st).1 :=
  ⟨rfl, rfl⟩

/-- C8: the source declares `darkMode` with `reflect: true` and
attribute name `dark-mode`; under the spec's reflected-boolean-attribute
semantics, after the next render cycle the attribute's presence matches
the field, and an external attribute change updates the field. -/
theorem C8_dark_mode_two_way_reflection :
    properties.lookup "darkMode"
        = some { type := .boolean, reflect := true, attrName := some "dark-mode" }
    ∧ (∀ d : DomState, (reflectAfterRender d).hasDarkModeAttr = d.fields.darkMode)
    ∧ (∀ (d : DomState) (b : Bool),
        (attributeChanged d b).fields.darkMode = b) :=
  ⟨rfl, fun _ => rfl, fun _ _ => rfl⟩

/-- C9: `format` is pure with respect to the element's state: run as a
state transformer it leaves every field unchanged, and its result
depends only on its arguments and the current `formatter` — two states
agreeing on `formatter` produce the same result. -/
theorem C9_format_frame (st₁ st₂ : TitleBarState) (v : JSValue)
    (o : Option FormatOptions) (h : st₁.formatter = st₂.formatter) :
    (formatStep st₁ v o).2 = st₁
    ∧ (formatStep st₁ v o).1 = (formatStep st₂ v o).1 := by
  refine ⟨rfl, ?_⟩
  simp [formatStep, TitleBarState.format, applyFormatter, h]

/-- Witness for C9 at concrete states that differ in `title` but agree
on `formatter`. -/
theorem C9_format_frame_witness :
    (formatStep init (.str "x") none).2 = init
    ∧ (formatStep init (.str "x") none).1
        = (formatStep { init with title := "other" } (.str "x") none).1 :=
  C9_format_frame init { init with title := "other" } (.str "x") none rfl

/-- C10: with an explicitly supplied options object that omits the
`prefix` key, the destructured `prefix` is `undefined` and the result
begins with the text `"undefined"` (the `suffix` key still falls back
to its per-key default `""`); the default `{prefix: ''}` applies only
when the whole options argument is omitted, yielding an empty prefix. -/
theorem C10_omitted_key_yields_undefined (st : TitleBarState) (v : JSValue)
    (sufOpt : Option String) :
    st.format v (some { pre := none, suf := sufOpt })
        = "undefined" ++ jsTemplate (applyFormatter st v) ++ sufOpt.getD ""
    ∧ st.format v none
        = "" ++ jsTemplate (applyFormatter st v) ++ "" :=
  ⟨rfl, rfl⟩

end TitleBarTypes
